import Mathlib

/-!
# Verification of the Turtle Adventure simulation core

Shallow embedding of `turtle_adventure.py`: hit-testing, player/enemy
movement, the patrol enemies, the random-walk enemy, the enemy spawn
scheduler and the game-over signals, together with theorems settling the
specification's claims about them.

Positions are modelled over `ℚ` where the code only adds, subtracts and
compares coordinates, and over `ℝ` where the code uses trigonometry
(`atan2`, `cos`, `sin`).  Randomness (`random.randint`) is modelled by
explicit oracle draws, with the ranges the code passes to `randint`
recorded as validity predicates.
-/

namespace TurtleAdventure

/-- Embeds `Enemy.hits_player` (src lines 236-244): strict axis-aligned box test of
the player's position against the box of side `sz` centered on the enemy. -/
def hits_player (ex ey sz px py : ℚ) : Bool :=
  (decide (ex - sz/2 < px) && decide (px < ex + sz/2))
    && (decide (ey - sz/2 < py) && decide (py < ey + sz/2))

/-- Embeds `Home.contains` (src lines 127-133): closed-interval rectangle test. -/
def contains (hx hy sz x y : ℚ) : Bool :=
  (decide (hx - sz/2 ≤ x) && decide (x ≤ hx + sz/2))
    && (decide (hy - sz/2 ≤ y) && decide (y ≤ hy + sz/2))

/-- The four patrol edge directions; `FencingEnemy`/`BlockerEnemy` store the
current leg as a bound method (`self.move`), modelled as this tag. -/
inductive Dir : Type
  | up
  | right
  | down
  | left
deriving DecidableEq, Repr

/-- Position plus current patrol leg of a Fencing/Blocker enemy. -/
structure PatrolState : Type where
  x : ℚ
  y : ℚ
  dir : Dir
deriving DecidableEq, Repr

/-- Leg-switch targets of `FencingEnemy` (src `up`/`right`/`down`/`left`
methods, lines 425-447): up→right→down→left→up. -/
def fencingSwitch : Dir → Dir
  | Dir.up => Dir.right
  | Dir.right => Dir.down
  | Dir.down => Dir.left
  | Dir.left => Dir.up

/-- Leg-switch targets of `BlockerEnemy` (src lines 499-521):
up→down, right→left, down→up, left→right. -/
def blockerSwitch : Dir → Dir
  | Dir.up => Dir.down
  | Dir.right => Dir.left
  | Dir.down => Dir.up
  | Dir.left => Dir.right

/-- One `FencingEnemy.update()` movement step (src lines 418-447):
advance by `speed = 2` along the current leg around the home anchor
`(hx, hy)` with `off_from_home = 60`, switching legs when the moved
coordinate crosses the corresponding boundary. -/
def fencingUpdate (hx hy : ℚ) (s : PatrolState) : PatrolState :=
  match s.dir with
  | Dir.up =>
      let y := s.y - 2
      ⟨s.x, y, if y < hy - 60 then Dir.right else Dir.up⟩
  | Dir.right =>
      let x := s.x + 2
      ⟨x, s.y, if x > hx + 60 then Dir.down else Dir.right⟩
  | Dir.down =>
      let y := s.y + 2
      ⟨s.x, y, if y > hy + 60 then Dir.left else Dir.down⟩
  | Dir.left =>
      let x := s.x - 2
      ⟨x, s.y, if x < hx - 60 then Dir.up else Dir.left⟩

/-- One `BlockerEnemy.update()` movement step (src lines 492-521):
advance by `speed = 7` around the anchor `(px0, py0)`, the player's
position captured once in `BlockerEnemy.__init__`, with
`off_from_player = 60`; leg switches follow `blockerSwitch`. -/
def blockerUpdate (px0 py0 : ℚ) (s : PatrolState) : PatrolState :=
  match s.dir with
  | Dir.up =>
      let y := s.y - 7
      ⟨s.x, y, if y < py0 - 60 then Dir.down else Dir.up⟩
  | Dir.right =>
      let x := s.x + 7
      ⟨x, s.y, if x > px0 + 60 then Dir.left else Dir.right⟩
  | Dir.down =>
      let y := s.y + 7
      ⟨s.x, y, if y > py0 + 60 then Dir.up else Dir.down⟩
  | Dir.left =>
      let x := s.x - 7
      ⟨x, s.y, if x < px0 - 60 then Dir.right else Dir.left⟩

/-- Modelled from the spec: the square-perimeter patrol mechanic shared by
Fencing and Blocker — advance `speed` along the current leg of the square of
half-width 60 centered on the anchor `(ax, ay)`, and switch legs via the
given switch table when the moved coordinate crosses the boundary.  Used
only to state that `blockerUpdate` is the Fencing mechanic re-parameterised
(anchor, speed, switch table). -/
def patrolStep (ax ay speed : ℚ) (switch : Dir → Dir) (s : PatrolState) : PatrolState :=
  match s.dir with
  | Dir.up =>
      let y := s.y - speed
      ⟨s.x, y, if y < ay - 60 then switch Dir.up else Dir.up⟩
  | Dir.right =>
      let x := s.x + speed
      ⟨x, s.y, if x > ax + 60 then switch Dir.right else Dir.right⟩
  | Dir.down =>
      let y := s.y + speed
      ⟨s.x, y, if y > ay + 60 then switch Dir.down else Dir.down⟩
  | Dir.left =>
      let x := s.x - speed
      ⟨x, s.y, if x < ax - 60 then switch Dir.left else Dir.left⟩

/-- The four canonical starting states of `FencingEnemy.create` (src lines
401-414): the `pos` list of (position, first leg) pairs around the home
anchor, indexed by the `randint(0, 3)` draw. -/
def fencingStarts (hx hy : ℚ) : Fin 4 → PatrolState :=
  ![⟨hx, hy + 60, Dir.left⟩, ⟨hx + 60, hy, Dir.down⟩,
    ⟨hx, hy - 60, Dir.right⟩, ⟨hx - 60, hy, Dir.up⟩]

/-- The four canonical starting states of `BlockerEnemy.create` (src lines
475-488), around the captured player position. -/
def blockerStarts (px0 py0 : ℚ) : Fin 4 → PatrolState :=
  ![⟨px0, py0 + 60, Dir.left⟩, ⟨px0 + 60, py0, Dir.down⟩,
    ⟨px0, py0 - 60, Dir.right⟩, ⟨px0 - 60, py0, Dir.up⟩]

/-- Inductive invariant of the fencing patrol: per-leg bounds on the
position relative to the home anchor, satisfied by the canonical starts and
preserved by `fencingUpdate`. -/
def fencingInv (hx hy : ℚ) (s : PatrolState) : Prop :=
  match s.dir with
  | Dir.up => hx - 62 ≤ s.x ∧ s.x ≤ hx - 60 ∧ hy - 60 ≤ s.y ∧ s.y ≤ hy + 62
  | Dir.right => hx - 62 ≤ s.x ∧ s.x ≤ hx + 60 ∧ hy - 62 ≤ s.y ∧ s.y ≤ hy - 60
  | Dir.down => hx + 60 ≤ s.x ∧ s.x ≤ hx + 62 ∧ hy - 62 ≤ s.y ∧ s.y ≤ hy + 60
  | Dir.left => hx - 60 ≤ s.x ∧ s.x ≤ hx + 62 ∧ hy + 60 ≤ s.y ∧ s.y ≤ hy + 62

/-- Horizontal direction of a `RandomWalkEnemy` (`self.xmove` bound method). -/
inductive HDir : Type
  | left
  | right
deriving DecidableEq, Repr

/-- Vertical direction of a `RandomWalkEnemy` (`self.ymove` bound method). -/
inductive VDir : Type
  | up
  | down
deriving DecidableEq, Repr

/-- Mutable state of a `RandomWalkEnemy`: position and the two current
bounce directions. -/
structure RWState : Type where
  x : ℚ
  y : ℚ
  xdir : HDir
  ydir : VDir
deriving DecidableEq, Repr

/-- One `RandomWalkEnemy.update()` step (src lines 296-334): run the
current horizontal move (`x_left`/`x_right`) and then the current vertical
move (`y_up`/`y_down`); each move shifts its coordinate by `s` and reverses
its own direction per the source's boundary tests (`x < 0`, `x > width`,
`y <= 0`, `y > height`, each on the moved coordinate). -/
def rwUpdate (w h s : ℚ) (st : RWState) : RWState :=
  let st1 :=
    match st.xdir with
    | HDir.right =>
        let x := st.x + s
        { st with x := x, xdir := if x > w then HDir.left else HDir.right }
    | HDir.left =>
        let x := st.x - s
        { st with x := x, xdir := if x < 0 then HDir.right else HDir.left }
  match st1.ydir with
  | VDir.down =>
      let y := st1.y + s
      { st1 with y := y, ydir := if y > h then VDir.up else VDir.down }
  | VDir.up =>
      let y := st1.y - s
      { st1 with y := y, ydir := if y ≤ 0 then VDir.down else VDir.up }

/-- The validity range of a `random.randint(lo, hi)` draw (both bounds
inclusive). -/
def randintRange (lo hi r : ℤ) : Prop :=
  lo ≤ r ∧ r ≤ hi

/-- The draw ranges of `RandomWalkEnemy.create` (src lines 321-326): both
`x1` and `y1` come from `randint(0, screen_width - 1)` — the vertical draw
also uses `screen_width`. -/
def rwCreateDraws (sw r1 r2 : ℤ) : Prop :=
  randintRange 0 (sw - 1) r1 ∧ randintRange 0 (sw - 1) r2

/-- The draw ranges of `ChasingEnemy.create` (src lines 358-362): identical
to `RandomWalkEnemy.create`, both coordinates from
`randint(0, screen_width - 1)`. -/
def chasingCreateDraws (sw r1 r2 : ℤ) : Prop :=
  randintRange 0 (sw - 1) r1 ∧ randintRange 0 (sw - 1) r2

/-- The four enemy kinds registered in `TurtleAdventureGame.init_game`. -/
inductive EnemyKind : Type
  | randomWalk
  | chasing
  | fencing
  | blocker
deriving DecidableEq, Repr

/-- A registered enemy as the spawn scheduler sees it: kind, size, color
and position. -/
structure EnemyInst : Type where
  kind : EnemyKind
  size : ℚ
  color : String
  x : ℚ
  y : ℚ
deriving DecidableEq, Repr

/-- Registered `{kind, color}` factory pairs registered by `init_game` (src lines
616-619), in registration order. -/
def enemiesFactory : Fin 4 → EnemyKind × String :=
  ![(EnemyKind.randomWalk, "red"), (EnemyKind.chasing, "green"),
    (EnemyKind.fencing, "blue"), (EnemyKind.blocker, "yellow")]

/-- The oracle draws one `EnemyGenerator.create_enemy` firing consumes:
`idx` is the `randint(0, len(factory)-1)` kind selection, `r1`/`r2` are the
two `randint(0, screen_width - 1)` draws a RandomWalk/Chasing creation hook
makes, `edge` is the `randint(0, 3)` edge selection a Fencing/Blocker
creation hook makes. -/
structure SpawnDraws : Type where
  idx : Fin 4
  r1 : ℤ
  r2 : ℤ
  edge : Fin 4
deriving DecidableEq, Repr

/-- The position each kind's `create()` hook assigns (overwriting whatever
was there): RandomWalk/Chasing set both coordinates from their
`randint(0, screen_width - 1)` draws (src lines 321-326 and 358-362);
Fencing/Blocker set one of their four canonical edge starts (src lines
401-414 and 475-488). -/
def createHookPos (hx hy px py : ℚ) (d : SpawnDraws) : EnemyKind → ℚ × ℚ
  | EnemyKind.randomWalk => ((d.r1 : ℚ), (d.r2 : ℚ))
  | EnemyKind.chasing => ((d.r1 : ℚ), (d.r2 : ℚ))
  | EnemyKind.fencing => ((fencingStarts hx hy d.edge).x, (fencingStarts hx hy d.edge).y)
  | EnemyKind.blocker => ((blockerStarts px py d.edge).x, (blockerStarts px py d.edge).y)

/-- The session state the spawn scheduler touches.  `running` is modelled
from the spec: gamelib's `Game` keeps a stopped flag that `stop()` clears
(gamelib itself is not part of the given sources).  `pendingSpawn` is the
deadline of the currently queued `create_enemy` callback, if any. -/
structure GameModel : Type where
  running : Bool
  entities : List EnemyInst
  pendingSpawn : Option ℕ
deriving DecidableEq, Repr

/-- Embeds `EnemyGenerator.create_enemy` (src lines 568-579): pick the factory
pair at the drawn index, instantiate it with size 20, assign the spawn
coordinate `(100, 100)`, register it via `add_element`, and re-schedule
itself after 500 time-units.  `add_element` is modelled from the spec:
gamelib's `Game.add_element` registers the entity and calls its creation
hook before the first tick in which it participates — hence the registered
position is `createHookPos`.  Note the function reads neither `g.running`
nor any stop signal, exactly as in the source. -/
def create_enemy (hx hy px py : ℚ) (d : SpawnDraws) (now : ℕ) (g : GameModel) : GameModel :=
  let pair := enemiesFactory d.idx
  let pos := createHookPos hx hy px py d pair.1
  let registered : EnemyInst := ⟨pair.1, 20, pair.2, pos.1, pos.2⟩
  { g with
      entities := g.entities ++ [registered]
      pendingSpawn := some (now + 500) }

/-- The scheduler's firing times, measured from session start:
`EnemyGenerator.__init__` schedules the first firing after 100 time-units
(src line 552) and every firing re-schedules the next after 500 (src line
579). -/
def fireTime : ℕ → ℕ
  | 0 => 100
  | n + 1 => fireTime n + 500

/-- The game-over state of a session: the spec-level stopped flag
(modelled from the spec, gamelib's `Game.stop()` sets it) plus the list of
text overlays created on the canvas, as (text, color) pairs. -/
structure SessionState : Type where
  running : Bool
  overlays : List (String × String)
deriving DecidableEq, Repr

/-- Embeds `TurtleAdventureGame.game_over_win` (src lines 631-641): stop the game
and draw the "You Win" overlay.  No guard on any previous outcome, exactly
as in the source. -/
def game_over_win (s : SessionState) : SessionState :=
  ⟨false, s.overlays ++ [("You Win", "green")]⟩

/-- Embeds `TurtleAdventureGame.game_over_lose` (src lines 643-653): stop the game
and draw the "You Lose" overlay.  No guard on any previous outcome. -/
def game_over_lose (s : SessionState) : SessionState :=
  ⟨false, s.overlays ++ [("You Lose", "red")]⟩

/-- The verdict a session displays: the last overlay drawn (later
`create_text` calls draw over earlier ones). -/
def displayedOutcome (s : SessionState) : Option String :=
  (s.overlays.map Prod.fst).getLast?

/-- Embeds `math.atan2 y x` as the argument of the complex number
`x + y·i` — Mathlib's `Complex.arg` computes exactly the two-argument
arctangent, including `atan2 0 0 = 0`. -/
noncomputable def atan2 (y x : ℝ) : ℝ :=
  Complex.arg ⟨x, y⟩

/-- Euclidean distance between `(x1, y1)` and `(x2, y2)` (turtle's
`distance`, and the metric of the spec's convergence claims). -/
noncomputable def eudist (x1 y1 x2 y2 : ℝ) : ℝ :=
  Real.sqrt ((x2 - x1) ^ 2 + (y2 - y1) ^ 2)

/-- One `ChasingEnemy.update()` movement step (src lines 364-373): heading
`atan2(player.y - y, player.x - x)`, advance by `speed = 3` along it. -/
noncomputable def chasingStep (cx cy px py : ℝ) : ℝ × ℝ :=
  let angle := atan2 (py - cy) (px - cx)
  (cx + 3 * Real.cos angle, cy + 3 * Real.sin angle)

/-- Player position together with the waypoint record (`Waypoint`:
coordinates plus the active flag). -/
structure PlayerState : Type where
  px : ℝ
  py : ℝ
  wx : ℝ
  wy : ℝ
  wactive : Bool

/-- The movement part of `Player.update()` (src lines 176-182): if the
waypoint is active, head towards it (`setheading(towards(...))`, the
degree/radian conversions of turtle's `towards`/`setheading` cancel, so the
heading is `atan2`), move `forward(speed)`, then deactivate the waypoint if
the remaining distance is below `speed`.  If the waypoint is inactive the
player does not move. -/
noncomputable def playerUpdate (speed : ℝ) (s : PlayerState) : PlayerState :=
  if s.wactive then
    let angle := atan2 (s.wy - s.py) (s.wx - s.px)
    let px := s.px + speed * Real.cos angle
    let py := s.py + speed * Real.sin angle
    if eudist px py s.wx s.wy < speed then ⟨px, py, s.wx, s.wy, false⟩
    else ⟨px, py, s.wx, s.wy, true⟩
  else s

/-- The win check at the start of `Player.update()` (src lines 174-175):
the player signals a win when its (pre-movement) position lies in Home's
rectangle.  Home's size is 20 (src line 608).  Stated over `ℚ`-valued
inputs via `contains`. -/
def playerWinSignal (hx hy px py : ℚ) : Bool :=
  contains hx hy 20 px py

/-! ## Helper lemmas -/

theorem cos_atan2 (y x : ℝ) (h : ¬(x = 0 ∧ y = 0)) :
    Real.cos (atan2 y x) = x / Real.sqrt (x ^ 2 + y ^ 2) := by
  have hz : (⟨x, y⟩ : ℂ) ≠ 0 := by
    simp only [ne_eq, Complex.ext_iff, Complex.zero_re, Complex.zero_im]
    exact h
  have h1 := Complex.cos_arg hz
  have h2 : Complex.abs ⟨x, y⟩ = Real.sqrt (x ^ 2 + y ^ 2) := by
    rw [Complex.abs_apply, Complex.normSq_mk]
    rw [show x * x + y * y = x ^ 2 + y ^ 2 by ring]
  rw [atan2, h1, h2]

theorem sin_atan2 (y x : ℝ) :
    Real.sin (atan2 y x) = y / Real.sqrt (x ^ 2 + y ^ 2) := by
  have h1 := Complex.sin_arg (⟨x, y⟩ : ℂ)
  have h2 : Complex.abs ⟨x, y⟩ = Real.sqrt (x ^ 2 + y ^ 2) := by
    rw [Complex.abs_apply, Complex.normSq_mk]
    rw [show x * x + y * y = x ^ 2 + y ^ 2 by ring]
  rw [atan2, h1, h2]

theorem step_dist_aux (dx dy s : ℝ) (h : ¬(dx = 0 ∧ dy = 0)) :
    Real.sqrt ((dx - s * (dx / Real.sqrt (dx ^ 2 + dy ^ 2))) ^ 2
        + (dy - s * (dy / Real.sqrt (dx ^ 2 + dy ^ 2))) ^ 2)
      = |Real.sqrt (dx ^ 2 + dy ^ 2) - s| := by
  have hpos : 0 < dx ^ 2 + dy ^ 2 := by
    rcases not_and_or.mp h with h1 | h1
    · have := pow_two_pos_of_ne_zero h1
      nlinarith [sq_nonneg dy]
    · have := pow_two_pos_of_ne_zero h1
      nlinarith [sq_nonneg dx]
  have hrpos : 0 < Real.sqrt (dx ^ 2 + dy ^ 2) := Real.sqrt_pos.mpr hpos
  have hr2 : Real.sqrt (dx ^ 2 + dy ^ 2) ^ 2 = dx ^ 2 + dy ^ 2 := Real.sq_sqrt hpos.le
  have key : (dx - s * (dx / Real.sqrt (dx ^ 2 + dy ^ 2))) ^ 2
      + (dy - s * (dy / Real.sqrt (dx ^ 2 + dy ^ 2))) ^ 2
      = (Real.sqrt (dx ^ 2 + dy ^ 2) - s) ^ 2 := by
    field_simp
    nlinarith [hr2, hrpos]
  rw [key, Real.sqrt_sq_eq_abs]

theorem eudist_ne_zero_diff (x y tx ty : ℝ) (h : eudist x y tx ty ≠ 0) :
    ¬(tx - x = 0 ∧ ty - y = 0) := by
  rintro ⟨h1, h2⟩
  exact h (by simp [eudist, h1, h2])

theorem step_eudist (x y tx ty s : ℝ) (h : ¬(tx - x = 0 ∧ ty - y = 0)) :
    eudist (x + s * Real.cos (atan2 (ty - y) (tx - x)))
        (y + s * Real.sin (atan2 (ty - y) (tx - x))) tx ty
      = |eudist x y tx ty - s| := by
  have hc := cos_atan2 (ty - y) (tx - x) h
  have hs := sin_atan2 (ty - y) (tx - x)
  simp only [eudist]
  rw [hc, hs]
  have e1 : tx - (x + s * ((tx - x) / Real.sqrt ((tx - x) ^ 2 + (ty - y) ^ 2)))
      = (tx - x) - s * ((tx - x) / Real.sqrt ((tx - x) ^ 2 + (ty - y) ^ 2)) := by ring
  have e2 : ty - (y + s * ((ty - y) / Real.sqrt ((tx - x) ^ 2 + (ty - y) ^ 2)))
      = (ty - y) - s * ((ty - y) / Real.sqrt ((tx - x) ^ 2 + (ty - y) ^ 2)) := by ring
  rw [e1, e2]
  exact step_dist_aux (tx - x) (ty - y) s h

theorem eudist_eval (x1 y1 x2 y2 d : ℝ) (hd : 0 ≤ d)
    (h : (x2 - x1) ^ 2 + (y2 - y1) ^ 2 = d ^ 2) : eudist x1 y1 x2 y2 = d := by
  rw [eudist, h, Real.sqrt_sq hd]

/-! ## Claim theorems -/

/-- C2: `hits_player` is true iff the player's coordinates lie strictly
inside the open box of side `size` centered on the enemy, while
`Home.contains` uses closed intervals; consequently a point exactly on
Home's boundary (at its actual size 20) is contained while a player exactly
on an enemy's box boundary is never hit. -/
theorem hit_test_open_home_closed (ex ey sz px py hx hy x y : ℚ) :
    (hits_player ex ey sz px py = true ↔
      ((ex - sz/2 < px ∧ px < ex + sz/2) ∧ (ey - sz/2 < py ∧ py < ey + sz/2))) ∧
    (contains hx hy sz x y = true ↔
      ((hx - sz/2 ≤ x ∧ x ≤ hx + sz/2) ∧ (hy - sz/2 ≤ y ∧ y ≤ hy + sz/2))) ∧
    contains hx hy 20 (hx + 20/2) hy = true ∧
    hits_player ex ey sz (ex + sz/2) py = false := by
  refine ⟨?_, ?_, ?_, ?_⟩
  · simp [hits_player, and_assoc]
  · simp [contains, and_assoc]
  · simp only [contains, Bool.and_eq_true, decide_eq_true_eq]
    refine ⟨⟨by linarith, by linarith⟩, by linarith, by linarith⟩
  · simp only [hits_player, Bool.and_eq_true, decide_eq_true_eq,
      Bool.and_eq_false_iff, decide_eq_false_iff_not, not_lt]
    left
    right
    linarith

/-- C5: the Blocker enemy is the Fencing patrol mechanic re-parameterised:
anchored on the player position captured at creation time, half-width 60,
speed 7, and with the leg-switch table up→down, right→left, down→up,
left→right. -/
theorem blocker_is_fencing_mechanic (px0 py0 hx hy : ℚ) (s : PatrolState) :
    blockerUpdate px0 py0 s = patrolStep px0 py0 7 blockerSwitch s ∧
    fencingUpdate hx hy s = patrolStep hx hy 2 fencingSwitch s ∧
    blockerSwitch Dir.up = Dir.down ∧ blockerSwitch Dir.right = Dir.left ∧
    blockerSwitch Dir.down = Dir.up ∧ blockerSwitch Dir.left = Dir.right := by
  refine ⟨?_, ?_, rfl, rfl, rfl, rfl⟩
  · cases s with
    | mk x y dir => cases dir <;> rfl
  · cases s with
    | mk x y dir => cases dir <;> rfl

/-- C7: the claim demands a queued spawn firing after session stop be a
no-op, but `create_enemy` reads no stop flag: fired on a stopped session it
still registers a new enemy and re-schedules itself. -/
theorem spawn_after_stop_not_noop :
    (⟨false, [], none⟩ : GameModel).running = false ∧
    (create_enemy 700 300 50 300 ⟨1, 0, 0, 0⟩ 1000 ⟨false, [], none⟩).entities.length = 1 ∧
    (create_enemy 700 300 50 300 ⟨1, 0, 0, 0⟩ 1000 ⟨false, [], none⟩).pendingSpawn
      = some 1500 := by
  refine ⟨rfl, ?_, ?_⟩ <;> decide

/-- C8: the claim says the first game-over signal wins and later signals
are ignored, but `game_over_win`/`game_over_lose` have no guard: a second
signal performs its side effects again, drawing another overlay and
flipping the displayed verdict from "You Win" to "You Lose". -/
theorem game_over_signals_not_latched :
    (game_over_lose (game_over_win ⟨true, []⟩)).overlays
        = [("You Win", "green"), ("You Lose", "red")] ∧
    displayedOutcome (game_over_win ⟨true, []⟩) = some ("You Win") ∧
    displayedOutcome (game_over_lose (game_over_win ⟨true, []⟩)) = some ("You Lose") := by
  refine ⟨?_, ?_, ?_⟩ <;> decide

/-- C1 (amended): when the enemy-player distance is at least the chasing
enemy's speed (3), one `ChasingEnemy.update()` movement step decreases the
Euclidean distance to the player by exactly 3, in particular moving the
enemy strictly closer.  (For distances below 3 the step overshoots the
player and the distance does not decrease by 3 — see the counterexample.) -/
theorem chasing_update_closes_distance (cx cy px py : ℝ)
    (h : 3 ≤ eudist cx cy px py) :
    eudist (chasingStep cx cy px py).1 (chasingStep cx cy px py).2 px py
        = eudist cx cy px py - 3 ∧
    eudist (chasingStep cx cy px py).1 (chasingStep cx cy px py).2 px py
        < eudist cx cy px py := by
  have hne : eudist cx cy px py ≠ 0 := by
    intro h0
    rw [h0] at h
    norm_num at h
  have hd := step_eudist cx cy px py 3 (eudist_ne_zero_diff _ _ _ _ hne)
  have habs : |eudist cx cy px py - 3| = eudist cx cy px py - 3 :=
    abs_of_nonneg (by linarith)
  constructor
  · simp only [chasingStep]
    rw [hd, habs]
  · simp only [chasingStep]
    rw [hd, habs]
    linarith

/-- Witness for C1: a chaser at `(5, 0)` with the player at the origin is
at distance 5 ≥ 3; one update brings it to distance 2, strictly closer. -/
theorem chasing_update_closes_distance_witness :
    3 ≤ eudist 5 0 0 0 ∧
    (eudist (chasingStep 5 0 0 0).1 (chasingStep 5 0 0 0).2 0 0 = eudist 5 0 0 0 - 3 ∧
     eudist (chasingStep 5 0 0 0).1 (chasingStep 5 0 0 0).2 0 0 < eudist 5 0 0 0) := by
  have h5 : eudist 5 0 0 0 = 5 := eudist_eval 5 0 0 0 5 (by norm_num) (by norm_num)
  exact ⟨by rw [h5]; norm_num,
    chasing_update_closes_distance 5 0 0 0 (by rw [h5]; norm_num)⟩

/-- Counterexample to C1 as stated: a chaser at `(1, 0)` with the player at
the origin (distinct positions, distance 1) overshoots to `(-2, 0)` after
one update, ending at distance 2 — farther away, and the distance did not
decrease by 3. -/
theorem chasing_claim_counterexample :
    eudist 1 0 0 0 = 1 ∧
    eudist (chasingStep 1 0 0 0).1 (chasingStep 1 0 0 0).2 0 0 = 2 ∧
    ¬ (eudist (chasingStep 1 0 0 0).1 (chasingStep 1 0 0 0).2 0 0
        < eudist 1 0 0 0) := by
  have h1 : eudist 1 0 0 0 = 1 := eudist_eval 1 0 0 0 1 (by norm_num) (by norm_num)
  have hang : atan2 ((0 : ℝ) - 0) ((0 : ℝ) - 1) = Real.pi := by
    have hz : ((⟨(0 : ℝ) - 1, (0 : ℝ) - 0⟩ : ℂ)) = (-1 : ℂ) := by
      simp [Complex.ext_iff]
    rw [atan2, hz, Complex.arg_neg_one]
  have hstep : chasingStep 1 0 0 0 = (-2, 0) := by
    simp only [chasingStep, hang, Real.cos_pi, Real.sin_pi]
    norm_num
  rw [hstep]
  have h2 : eudist (-2 : ℝ) 0 0 0 = 2 := eudist_eval (-2) 0 0 0 2 (by norm_num) (by norm_num)
  simp only [h1, h2]
  norm_num

/-- C3 (amended): if the waypoint is active and its distance to the player
is positive and at most the player's speed, one `Player.update()` movement
step deactivates the waypoint and leaves the player within `speed` of the
target.  (At distance exactly 0 the player overshoots to distance exactly
`speed` and the strict `distance < speed` test keeps the waypoint active —
see the counterexample.) -/
theorem player_arrival_deactivates (speed : ℝ) (s : PlayerState)
    (hact : s.wactive = true)
    (h0 : 0 < eudist s.px s.py s.wx s.wy)
    (h1 : eudist s.px s.py s.wx s.wy ≤ speed) :
    (playerUpdate speed s).wactive = false ∧
    eudist (playerUpdate speed s).px (playerUpdate speed s).py s.wx s.wy ≤ speed := by
  have hne : eudist s.px s.py s.wx s.wy ≠ 0 := ne_of_gt h0
  have hd := step_eudist s.px s.py s.wx s.wy speed (eudist_ne_zero_diff _ _ _ _ hne)
  have habs : |eudist s.px s.py s.wx s.wy - speed|
      = speed - eudist s.px s.py s.wx s.wy := by
    rw [abs_sub_comm]
    exact abs_of_nonneg (by linarith)
  have hcond : eudist
      (s.px + speed * Real.cos (atan2 (s.wy - s.py) (s.wx - s.px)))
      (s.py + speed * Real.sin (atan2 (s.wy - s.py) (s.wx - s.px)))
      s.wx s.wy < speed := by
    rw [hd, habs]
    linarith
  constructor
  · simp only [playerUpdate, hact, if_true, hcond]
  · simp only [playerUpdate, hact, if_true, hcond]
    rw [hd, habs]
    linarith

/-- Witness for C3: player at the origin, active waypoint at `(3, 0)`,
speed 5 — distance 3 is positive and at most 5; one update deactivates the
waypoint and leaves the player within 5 of the target. -/
theorem player_arrival_deactivates_witness :
    (0 < eudist (⟨0, 0, 3, 0, true⟩ : PlayerState).px
        (⟨0, 0, 3, 0, true⟩ : PlayerState).py 3 0 ∧
     eudist 0 0 3 0 ≤ 5) ∧
    ((playerUpdate 5 ⟨0, 0, 3, 0, true⟩).wactive = false ∧
     eudist (playerUpdate 5 ⟨0, 0, 3, 0, true⟩).px
        (playerUpdate 5 ⟨0, 0, 3, 0, true⟩).py 3 0 ≤ 5) := by
  have h3 : eudist 0 0 3 0 = 3 := eudist_eval 0 0 3 0 3 (by norm_num) (by norm_num)
  refine ⟨⟨by rw [h3]; norm_num, by rw [h3]; norm_num⟩, ?_⟩
  exact player_arrival_deactivates 5 ⟨0, 0, 3, 0, true⟩ rfl
    (by rw [h3]; norm_num) (by rw [h3]; norm_num)

/-- Counterexample to C3 as stated: with the player exactly on the active
waypoint (distance 0 ≤ speed 5), `atan2(0, 0) = 0` sends the player to
`(5, 0)`, the post-move distance equals `speed` exactly, the strict
`distance < speed` test fails, and the waypoint stays active. -/
theorem player_arrival_counterexample :
    eudist 0 0 0 0 ≤ 5 ∧
    (playerUpdate 5 ⟨0, 0, 0, 0, true⟩).wactive = true := by
  have h0 : eudist (0 : ℝ) 0 0 0 = 0 := eudist_eval 0 0 0 0 0 (by norm_num) (by norm_num)
  have hang : atan2 ((0 : ℝ) - 0) ((0 : ℝ) - 0) = 0 := by
    have hz : ((⟨(0 : ℝ) - 0, (0 : ℝ) - 0⟩ : ℂ)) = 0 := by
      simp [Complex.ext_iff]
    rw [atan2, hz, Complex.arg_zero]
  have hcond : ¬ (eudist ((0 : ℝ) + 5 * Real.cos (atan2 ((0 : ℝ) - 0) ((0 : ℝ) - 0)))
      ((0 : ℝ) + 5 * Real.sin (atan2 ((0 : ℝ) - 0) ((0 : ℝ) - 0))) 0 0 < 5) := by
    rw [hang, Real.cos_zero, Real.sin_zero]
    have h5 : eudist ((0 : ℝ) + 5 * 1) ((0 : ℝ) + 5 * 0) 0 0 = 5 :=
      eudist_eval _ _ _ _ 5 (by norm_num) (by norm_num)
    rw [h5]
    norm_num
  refine ⟨by rw [h0]; norm_num, ?_⟩
  simp only [playerUpdate, if_true, hcond, if_false]

set_option maxHeartbeats 1000000
set_option maxRecDepth 10000

theorem fencingInv_start (hx hy : ℚ) (i : Fin 4) :
    fencingInv hx hy (fencingStarts hx hy i) := by
  fin_cases i
  · exact show hx - 60 ≤ hx ∧ hx ≤ hx + 62 ∧ hy + 60 ≤ hy + 60 ∧ hy + 60 ≤ hy + 62 from
      ⟨by linarith, by linarith, by linarith, by linarith⟩
  · exact show hx + 60 ≤ hx + 60 ∧ hx + 60 ≤ hx + 62 ∧ hy - 62 ≤ hy ∧ hy ≤ hy + 60 from
      ⟨by linarith, by linarith, by linarith, by linarith⟩
  · exact show hx - 62 ≤ hx ∧ hx ≤ hx + 60 ∧ hy - 62 ≤ hy - 60 ∧ hy - 60 ≤ hy - 60 from
      ⟨by linarith, by linarith, by linarith, by linarith⟩
  · exact show hx - 62 ≤ hx - 60 ∧ hx - 60 ≤ hx - 60 ∧ hy - 60 ≤ hy ∧ hy ≤ hy + 62 from
      ⟨by linarith, by linarith, by linarith, by linarith⟩

theorem fencingInv_step (hx hy : ℚ) (s : PatrolState) (h : fencingInv hx hy s) :
    fencingInv hx hy (fencingUpdate hx hy s) := by
  cases s with
  | mk x y dir =>
    cases dir <;>
      simp only [fencingUpdate, fencingInv] at h ⊢ <;>
      obtain ⟨h1, h2, h3, h4⟩ := h <;>
      split_ifs with hc <;>
      simp only [fencingInv] <;>
      refine ⟨by linarith, by linarith, by linarith, by linarith⟩

theorem fencingInv_iter (hx hy : ℚ) (s : PatrolState) (h : fencingInv hx hy s)
    (n : ℕ) : fencingInv hx hy ((fencingUpdate hx hy)^[n] s) := by
  induction n with
  | zero => simpa
  | succ n ih =>
      rw [Function.iterate_succ_apply']
      exact fencingInv_step hx hy _ ih

theorem fencingInv_bound (hx hy : ℚ) (s : PatrolState) (h : fencingInv hx hy s) :
    |s.x - hx| ≤ 62 ∧ |s.y - hy| ≤ 62 := by
  cases s with
  | mk x y dir =>
    cases dir <;>
      simp only [fencingInv] at h <;>
      obtain ⟨h1, h2, h3, h4⟩ := h <;>
      exact ⟨abs_le.mpr ⟨by linarith, by linarith⟩, abs_le.mpr ⟨by linarith, by linarith⟩⟩

/-- C4 (amended): from any of the 4 canonical edge starts, repeated
`FencingEnemy.update()` steps keep the position within the square of
half-width `off_from_home + speed = 62` centered on Home (the legs
overshoot each boundary by up to `speed = 2` before switching, so the
claimed half-width 60 square is exceeded — see the counterexample); the
leg direction only ever stays or advances to its cyclic successor
up→right→down→left→up, and a concrete run from the first canonical start
passes through all four legs in that cyclic order. -/
theorem fencing_patrol_bounded (hx hy : ℚ) (s0 : PatrolState)
    (h : ∃ i : Fin 4, s0 = fencingStarts hx hy i) :
    (∀ n : ℕ, |((fencingUpdate hx hy)^[n] s0).x - hx| ≤ 62 ∧
        |((fencingUpdate hx hy)^[n] s0).y - hy| ≤ 62) ∧
    (∀ s : PatrolState, (fencingUpdate hx hy s).dir = s.dir ∨
        (fencingUpdate hx hy s).dir = fencingSwitch s.dir) ∧
    (fencingSwitch Dir.up = Dir.right ∧ fencingSwitch Dir.right = Dir.down ∧
     fencingSwitch Dir.down = Dir.left ∧ fencingSwitch Dir.left = Dir.up) ∧
    (((fencingUpdate 0 0)^[0] (fencingStarts 0 0 0)).dir = Dir.left ∧
     ((fencingUpdate 0 0)^[31] (fencingStarts 0 0 0)).dir = Dir.up ∧
     ((fencingUpdate 0 0)^[92] (fencingStarts 0 0 0)).dir = Dir.right ∧
     ((fencingUpdate 0 0)^[154] (fencingStarts 0 0 0)).dir = Dir.down ∧
     ((fencingUpdate 0 0)^[216] (fencingStarts 0 0 0)).dir = Dir.left) := by
  obtain ⟨i, rfl⟩ := h
  refine ⟨?_, ?_, ⟨rfl, rfl, rfl, rfl⟩, ?_, ?_, ?_, ?_, ?_⟩
  · intro n
    exact fencingInv_bound hx hy _ (fencingInv_iter hx hy _ (fencingInv_start hx hy i) n)
  · intro s
    cases s with
    | mk x y dir =>
      cases dir <;> simp only [fencingUpdate, fencingSwitch] <;> split_ifs <;> simp
  · norm_num [fencingStarts]
  · norm_num [Function.iterate_succ_apply', fencingUpdate, fencingStarts]
  · norm_num [Function.iterate_succ_apply', fencingUpdate, fencingStarts]
  · norm_num [Function.iterate_succ_apply', fencingUpdate, fencingStarts]
  · norm_num [Function.iterate_succ_apply', fencingUpdate, fencingStarts]

/-- Witness for C4: the first canonical start around the anchor `(0, 0)`
satisfies the hypothesis, and after 31 updates the position is still
within the half-width-62 square. -/
theorem fencing_patrol_bounded_witness :
    |((fencingUpdate 0 0)^[31] (fencingStarts 0 0 0)).x - 0| ≤ 62 ∧
    |((fencingUpdate 0 0)^[31] (fencingStarts 0 0 0)).y - 0| ≤ 62 :=
  (fencing_patrol_bounded 0 0 (fencingStarts 0 0 0) ⟨0, rfl⟩).1 31

/-- Counterexample to C4 as stated: starting at the canonical edge start
`(homex, homey + 60)` (with Home at the origin) moving left, after 31
updates the enemy sits at `x = -62`, outside the square of half-width
`off_from_home = 60`. -/
theorem fencing_patrol_counterexample :
    fencingStarts 0 0 0 = ⟨0, 60, Dir.left⟩ ∧
    (fencingUpdate 0 0)^[31] (fencingStarts 0 0 0) = ⟨-62, 60, Dir.up⟩ ∧
    ¬ |(-62 : ℚ) - 0| ≤ 60 := by
  refine ⟨by norm_num [fencingStarts], ?_, by norm_num⟩
  norm_num [Function.iterate_succ_apply', fencingUpdate, fencingStarts]

/-- C9 (amended): a RandomWalk enemy moves diagonally by `(speed, speed)`
per tick along its current directions, and each direction reverses exactly
when the source's own boundary test on the moved coordinate fires: while
moving right when `x > width`, while moving left when `x < 0`, while moving
down when `y > height` — but while moving up already when `y ≤ 0`, i.e.
also at `y = 0` exactly, which is still inside `[0, height]` (see the
counterexample). -/
theorem randomwalk_update_props (w h s : ℚ) (st : RWState) (hs : 1 ≤ s) :
    |(rwUpdate w h s st).x - st.x| = s ∧ |(rwUpdate w h s st).y - st.y| = s ∧
    (st.xdir = HDir.right → ((rwUpdate w h s st).xdir = HDir.left ↔ w < st.x + s)) ∧
    (st.xdir = HDir.left → ((rwUpdate w h s st).xdir = HDir.right ↔ st.x - s < 0)) ∧
    (st.ydir = VDir.down → ((rwUpdate w h s st).ydir = VDir.up ↔ h < st.y + s)) ∧
    (st.ydir = VDir.up → ((rwUpdate w h s st).ydir = VDir.down ↔ st.y - s ≤ 0)) := by
  have hs0 : (0 : ℚ) ≤ s := by linarith
  cases st with
  | mk x y xd yd =>
    cases xd <;> cases yd <;>
      simp only [rwUpdate] <;>
      split_ifs with c1 c2 <;>
      refine ⟨?_, ?_, ?_, ?_, ?_, ?_⟩ <;>
      simp_all

/-- Witness for C9: a RandomWalk enemy at `(10, 20)` moving right/down with
speed 5 (a legal `randint(1, 5)` draw) moves by exactly 5 on each axis. -/
theorem randomwalk_update_props_witness :
    (1 : ℚ) ≤ 5 ∧
    |(rwUpdate 800 600 5 ⟨10, 20, HDir.right, VDir.down⟩).x - 10| = 5 ∧
    |(rwUpdate 800 600 5 ⟨10, 20, HDir.right, VDir.down⟩).y - 20| = 5 :=
  ⟨by norm_num,
    (randomwalk_update_props 800 600 5 ⟨10, 20, HDir.right, VDir.down⟩ (by norm_num)).1,
    (randomwalk_update_props 800 600 5 ⟨10, 20, HDir.right, VDir.down⟩ (by norm_num)).2.1⟩

/-- Counterexample to C9 as stated: an upward-moving RandomWalk enemy at
`y = 5` with speed 5 (a legal `randint(1, 5)` draw) lands on `y = 0`,
which has not exited `[0, height]`, yet the vertical direction reverses
(the source's upward test is `y <= 0`, not an exit test). -/
theorem randomwalk_claim_counterexample :
    (rwUpdate 800 600 5 ⟨100, 5, HDir.right, VDir.up⟩).y = 0 ∧
    0 ≤ (rwUpdate 800 600 5 ⟨100, 5, HDir.right, VDir.up⟩).y ∧
    (rwUpdate 800 600 5 ⟨100, 5, HDir.right, VDir.up⟩).y ≤ 600 ∧
    (rwUpdate 800 600 5 ⟨100, 5, HDir.right, VDir.up⟩).ydir = VDir.down ∧
    randintRange 1 5 5 := by
  norm_num [rwUpdate, randintRange]

/-- C6 (amended): the spawn scheduler fires first 100 time-units after
session start and every firing re-schedules the next 500 time-units later;
each firing picks the registered `{kind, color}` pair at the drawn index,
instantiates it with size 20, and appends exactly one new enemy of that
kind to the entity collection — but the registered enemy's position at its
first tick is the one assigned by its kind's creation hook, which
overwrites the `(100, 100)` spawn coordinate `create_enemy` assigned
before registration. -/
theorem spawn_scheduler_behavior (hx hy px py : ℚ) (d : SpawnDraws) (now n : ℕ)
    (g : GameModel) :
    fireTime n = 100 + 500 * n ∧
    (create_enemy hx hy px py d now g).pendingSpawn = some (now + 500) ∧
    (create_enemy hx hy px py d now g).running = g.running ∧
    ∃ e : EnemyInst,
      (create_enemy hx hy px py d now g).entities = g.entities ++ [e] ∧
      e.kind = (enemiesFactory d.idx).1 ∧ e.color = (enemiesFactory d.idx).2 ∧
      e.size = 20 ∧
      (e.x, e.y) = createHookPos hx hy px py d (enemiesFactory d.idx).1 := by
  refine ⟨?_, by exact rfl, by exact rfl, ?_⟩
  · induction n with
    | zero => rfl
    | succ n ih =>
        simp only [fireTime, ih]
        ring
  · exact ⟨_, rfl, rfl, rfl, rfl, rfl⟩

/-- Counterexample to C6 as stated: with screen width 800, selection draw 0
(RandomWalk) and creation draws `(0, 0)` — all legal `randint` outputs —
the enemy actually registered into the collection sits at `(0, 0)`, not at
the spawn coordinate `(100, 100)`. -/
theorem spawn_position_counterexample :
    (create_enemy 700 300 50 300 ⟨0, 0, 0, 0⟩ 0 ⟨true, [], some 100⟩).entities
      = [⟨EnemyKind.randomWalk, 20, "red", 0, 0⟩] ∧
    ¬ ((⟨EnemyKind.randomWalk, 20, "red", 0, 0⟩ : EnemyInst).x = 100 ∧
       (⟨EnemyKind.randomWalk, 20, "red", 0, 0⟩ : EnemyInst).y = 100) ∧
    rwCreateDraws 800 0 0 := by
  refine ⟨?_, by norm_num, by norm_num [rwCreateDraws, randintRange]⟩
  norm_num [create_enemy, createHookPos, enemiesFactory]

/-- C10: the creation hooks of RandomWalk and Chasing enemies draw both
coordinates from `randint(0, screen_width - 1)`: the resulting position is
bounded by the arena's width on both axes, so when the arena is wider than
tall a legal draw can place the enemy's `y` beyond the arena height, and
when it is taller than wide no legal draw can ever reach the bottom part of
the arena. -/
theorem create_hook_y_uses_width (sw sh : ℤ) (hx hy px py : ℚ) (d : SpawnDraws)
    (hsw : 0 < sw)
    (hrw : rwCreateDraws sw d.r1 d.r2) (hch : chasingCreateDraws sw d.r1 d.r2) :
    (0 ≤ (createHookPos hx hy px py d EnemyKind.randomWalk).2 ∧
      (createHookPos hx hy px py d EnemyKind.randomWalk).2 ≤ (sw : ℚ) - 1) ∧
    (0 ≤ (createHookPos hx hy px py d EnemyKind.chasing).2 ∧
      (createHookPos hx hy px py d EnemyKind.chasing).2 ≤ (sw : ℚ) - 1) ∧
    (sh < sw → ∃ d' : SpawnDraws, rwCreateDraws sw d'.r1 d'.r2 ∧
      (sh : ℚ) - 1 < (createHookPos hx hy px py d' EnemyKind.randomWalk).2) ∧
    (sw < sh → ∀ d' : SpawnDraws, rwCreateDraws sw d'.r1 d'.r2 →
      (createHookPos hx hy px py d' EnemyKind.randomWalk).2 < (sh : ℚ) - 1) := by
  obtain ⟨⟨hr1a, hr1b⟩, ⟨hr2a, hr2b⟩⟩ := hrw
  obtain ⟨⟨hc1a, hc1b⟩, ⟨hc2a, hc2b⟩⟩ := hch
  have hub : (d.r2 : ℚ) ≤ (sw : ℚ) - 1 := by
    have : (d.r2 : ℚ) ≤ ((sw - 1 : ℤ) : ℚ) := by exact_mod_cast hr2b
    push_cast at this
    linarith
  have hubc : (d.r2 : ℚ) ≤ (sw : ℚ) - 1 := by
    have : (d.r2 : ℚ) ≤ ((sw - 1 : ℤ) : ℚ) := by exact_mod_cast hc2b
    push_cast at this
    linarith
  refine ⟨⟨?_, ?_⟩, ⟨?_, ?_⟩, ?_, ?_⟩
  · show (0 : ℚ) ≤ (d.r2 : ℚ)
    exact_mod_cast hr2a
  · exact hub
  · show (0 : ℚ) ≤ (d.r2 : ℚ)
    exact_mod_cast hc2a
  · exact hubc
  · intro hlt
    have hv : rwCreateDraws sw (0 : ℤ) (sw - 1) :=
      ⟨⟨le_refl 0, by omega⟩, ⟨by omega, le_refl _⟩⟩
    refine ⟨⟨0, 0, sw - 1, 0⟩, hv, ?_⟩
    show (sh : ℚ) - 1 < ((sw - 1 : ℤ) : ℚ)
    push_cast
    have : (sh : ℚ) < (sw : ℚ) := by exact_mod_cast hlt
    linarith
  · intro hlt d' hd'
    obtain ⟨_, ⟨_, hb⟩⟩ := hd'
    show ((d'.r2 : ℚ)) < (sh : ℚ) - 1
    have h1 : (d'.r2 : ℚ) ≤ ((sw - 1 : ℤ) : ℚ) := by exact_mod_cast hb
    have h2 : (sw : ℚ) < (sh : ℚ) := by exact_mod_cast hlt
    push_cast at h1
    linarith

/-- Witness for C10: arena 800×600 with legal creation draws `(0, 700)` —
the created enemy's `y` is 700, within `[0, 799]` but beyond the arena
height 600. -/
theorem create_hook_y_uses_width_witness :
    (0 < (800 : ℤ) ∧ rwCreateDraws 800 0 700 ∧ chasingCreateDraws 800 0 700) ∧
    (0 ≤ (createHookPos 0 0 50 300 ⟨0, 0, 700, 0⟩ EnemyKind.randomWalk).2 ∧
      (createHookPos 0 0 50 300 ⟨0, 0, 700, 0⟩ EnemyKind.randomWalk).2 ≤ (800 : ℚ) - 1) ∧
    ((600 : ℤ) < 800 → ∃ d' : SpawnDraws, rwCreateDraws 800 d'.r1 d'.r2 ∧
      (600 : ℚ) - 1 < (createHookPos 0 0 50 300 d' EnemyKind.randomWalk).2) := by
  have hrw : rwCreateDraws 800 0 700 := by norm_num [rwCreateDraws, randintRange]
  have hch : chasingCreateDraws 800 0 700 := by norm_num [chasingCreateDraws, randintRange]
  have h := create_hook_y_uses_width 800 600 0 0 50 300 ⟨0, 0, 700, 0⟩ (by norm_num) hrw hch
  exact ⟨⟨by norm_num, hrw, hch⟩, h.1, h.2.2.1⟩

end TurtleAdventure
